import Mathlib

/-!
Verification of `transformer_engine/lazy_import.py`.

The module implements a lazy-import proxy in three flavors, selected by the
`TE_LAZY_IMPORT_FLAVOR` environment variable:

* `_LazyImport_FlavorA` — a `types.ModuleType` subclass whose
  `__getattribute__` performs the real import on first access and then swaps
  the instance's class so that further accesses go straight to the module;
* `_LazyImport_FlavorB` — a `types.ModuleType` subclass with a `__getattr__`
  hook that imports on a failed attribute lookup, copies the module dict into
  the proxy dict, and inserts the module into a captured globals mapping;
* `_LazyImport_FlavorC` — a thin wrapper around `importlib.util.LazyLoader`,
  which finds the module spec, registers an unexecuted module object in
  `sys.modules` at construction, and executes the module on first attribute
  access.

The embedding models the runtime pieces the code relies on: the process-wide
module registry (`sys.modules`), the import machinery (`__import__` /
`importlib.import_module`, consulting the registry before executing module
code), attribute lookup on module objects, `importlib.reload`, and Python's
`int()` parsing used by the flavor selector.  Machine-level details (threads,
bytecode, reference identity of arbitrary objects) are not needed by any
claim; object identity enters only through the one fact `importlib.reload`
depends on — whether the object passed to it is the entry registered in
`sys.modules` under its name — which is determined statically per flavor.
-/

/-- Python values that can appear as module attributes or dictionary entries
in the scenarios under verification.  `modRef n` stands for a module object,
referenced by its fully-qualified name; `obj tag` stands for an object whose
internals the claims never inspect (for example the captured
`parent_module_globals` dictionary); `specObj r` stands for a module spec
whose module would print as `r`. -/
inductive Value where
  | pyNone
  | nat (n : Nat)
  | str (s : String)
  | modRef (name : String)
  | obj (tag : String)
  | specObj (r : String)
deriving DecidableEq, Repr

/-- Python exceptions relevant to the lazy-import code: a failed module
lookup, a failed attribute lookup, `ImportError` (raised by
`importlib.reload` on an object that is not the registered module), and
`ValueError` (raised by `int()` and by the flavor dispatch). -/
inductive PyErr where
  | moduleNotFound (name : String)
  | attributeError (attr : String)
  | importError (msg : String)
  | valueError (msg : String)
deriving DecidableEq, Repr

instance {α β : Type} [DecidableEq α] [DecidableEq β] : DecidableEq (Except α β) := fun a b =>
  match a, b with
  | .error x, .error y =>
      if h : x = y then isTrue (by rw [h])
      else isFalse (fun hc => h (by cases hc; rfl))
  | .ok x, .ok y =>
      if h : x = y then isTrue (by rw [h])
      else isFalse (fun hc => h (by cases hc; rfl))
  | .error _, .ok _ => isFalse (fun hc => Except.noConfusion hc)
  | .ok _, .error _ => isFalse (fun hc => Except.noConfusion hc)

/-- Lookup of the first binding of key `k` in an association list (the
observable behavior of a Python `dict`, whose keys are unique). -/
def alookup {α : Type} : List (String × α) → String → Option α
  | [], _ => none
  | (k', v) :: rest, k => if k' = k then some v else alookup rest k

/-- Store `v` under key `k`, replacing an existing binding (Python
`d[k] = v`). -/
def aset {α : Type} : List (String × α) → String → α → List (String × α)
  | [], k, v => [(k, v)]
  | (k', v') :: rest, k, v =>
      if k' = k then (k, v) :: rest else (k', v') :: aset rest k v

/-- Observable behavior of Python `d.update(u)`: every key of `u` now maps to
its value in `u`, all other keys keep their value from `d`. -/
def aupdate {α : Type} (d u : List (String × α)) : List (String × α) :=
  u ++ d.filter (fun kv => (alookup u kv.1).isNone)

/-- A loaded module as the claims observe it: its `__dict__` (attribute
bindings) and its `repr`. -/
structure RealModule where
  attrs : List (String × Value)
  reprStr : String
deriving DecidableEq, Repr

/-- Attribute access on a real module object: dictionary lookup, raising
`AttributeError` on a miss. -/
def RealModule.getattr (m : RealModule) (x : String) : Except PyErr Value :=
  match alookup m.attrs x with
  | some v => .ok v
  | none => .error (.attributeError x)

/-- An entry of `sys.modules`.  `executed = false` marks the unexecuted
placeholder registered by `importlib.util.LazyLoader` (flavor C) before the
module's code has run. -/
structure ModEntry where
  mod : RealModule
  executed : Bool
deriving DecidableEq, Repr

/-- The mutable runtime state the code touches: the `sys.modules` registry
and a count of how many times module code was actually executed (the
quantity the spec asks to count in property P2). -/
structure Sys where
  modules : List (String × ModEntry)
  importCount : Nat
deriving DecidableEq, Repr

/-- The set of importable modules of the process (what `find_spec` and
the importing machinery can locate), mapping a fully-qualified name to the module
it would produce. -/
def Env : Type := List (String × RealModule)

/-- The import machinery (`__import__` followed by the `sys.modules[name]`
lookup, or equivalently `importlib.import_module(name)`): a name already
registered is returned from the registry without executing anything;
otherwise the module is located, executed, and registered; an unlocatable
name raises `ModuleNotFoundError`.  Dotted names are resolved under their
full name, matching the `sys.modules[name]` lookup the source performs after
`__import__`. -/
def pyImport (env : Env) (s : Sys) (name : String) :
    Except PyErr (Sys × RealModule) :=
  match alookup s.modules name with
  | some e => .ok (s, e.mod)
  | none =>
      match alookup env name with
      | some m =>
          .ok ({ modules := aset s.modules name ⟨m, true⟩,
                 importCount := s.importCount + 1 }, m)
      | none => .error (.moduleNotFound name)

/-! ## Flavor A: `_LazyImport_FlavorA` -/

/-- State of a `_LazyImport_FlavorA` instance: before the first attribute
access it only carries its `__name__`; afterwards its class has been swapped
to `LoadedLazyImport`, whose `__getattribute__` and `__repr__` are the real
module's bound methods. -/
inductive ProxyA where
  | unresolved (name : String)
  | resolved (name : String) (m : RealModule)
deriving DecidableEq, Repr

/-- Construction of a `_LazyImport_FlavorA` proxy: stores the name, performs
no import, touches no global state. -/
def mkProxyA (name : String) : ProxyA := .unresolved name

/-- Model of `_LazyImport_FlavorA.__getattribute__` (and of attribute access
after the class swap).  On an unresolved proxy every attribute access first
runs `__import__(name)` and the `sys.modules[name]` lookup, swaps the class,
and forwards the access to the module; a failed import propagates unchanged
and leaves the proxy unresolved.  On a resolved proxy the access is the real
module's own attribute lookup. -/
def getattrA (env : Env) (s : Sys) (p : ProxyA) (x : String) :
    Except PyErr Value × ProxyA × Sys :=
  match p with
  | .unresolved name =>
      match pyImport env s name with
      | .error e => (.error e, .unresolved name, s)
      | .ok (s', m) => (m.getattr x, .resolved name m, s')
  | .resolved _ m => (m.getattr x, p, s)

/-- Model of `_LazyImport_FlavorA.__repr__`, and of `repr` after the class
swap (where `__repr__` is the real module's bound `__repr__`). -/
def reprA (p : ProxyA) : String :=
  match p with
  | .unresolved name => "<module '" ++ name ++ "' will be lazily loaded>"
  | .resolved _ m => m.reprStr

/-- Model of `importlib.reload` applied to a flavor-A proxy.  `reload` reads
the module's name (on an unresolved proxy this access itself triggers
resolution) and then checks that the object it was given is the entry
registered in `sys.modules` under that name; a flavor-A proxy never is
(the importing machinery registered the real module), so `reload` raises
`ImportError`. -/
def reloadA (env : Env) (s : Sys) (p : ProxyA) :
    Except PyErr Unit × ProxyA × Sys :=
  match p with
  | .unresolved name =>
      match pyImport env s name with
      | .error e => (.error e, .unresolved name, s)
      | .ok (s', m) =>
          (.error (.importError ("module " ++ name ++ " not in sys.modules")),
           .resolved name m, s')
  | .resolved name _ =>
      (.error (.importError ("module " ++ name ++ " not in sys.modules")), p, s)

/-! ## Flavor B: `_LazyImport_FlavorB` -/

/-- Models `name.split(".")[-1]`: the last dot-separated segment of a module
name. -/
def lastSegment (s : String) : String :=
  ⟨go s.data []⟩
where
  go : List Char → List Char → List Char
    | [], cur => cur
    | c :: rest, cur => if c = '.' then go rest [] else go rest (cur ++ [c])

/-- Representative contents of the `lazy_import` module's own `globals()`
dictionary, the default target `_LazyImport_FlavorB.__init__` captures when
no `parent_module_globals` argument is passed.  Only the identity of this
dictionary matters to the claims, not its prior contents. -/
def lazyImportModuleGlobals : List (String × Value) :=
  [("__name__", .str "transformer_engine.lazy_import")]

/-- State of a `_LazyImport_FlavorB` instance: its `__name__`, the computed
`_local_name`, its instance `__dict__`, and the contents of the captured
`parent_module_globals` dictionary. -/
structure ProxyB where
  name : String
  localName : String
  dict : List (String × Value)
  parentGlobals : List (String × Value)
deriving DecidableEq, Repr

/-- Model of `_LazyImport_FlavorB.__init__`: capture the parent globals
(defaulting to this module's own `globals()`), compute the leaf segment of
the dotted name, store `_local_name` and `_parent_module_globals` on the
instance, then run `ModuleType.__init__`, which writes `__name__`,
`__doc__`, `__package__`, `__loader__` and `__spec__` into the instance
dictionary, the latter three as `None`.  No import is performed and no
global state is touched. -/
def mkProxyB (name : String) (parentModuleGlobals : Option (List (String × Value))) :
    ProxyB :=
  let pg := parentModuleGlobals.getD lazyImportModuleGlobals
  let ln := lastSegment name
  { name := name
    localName := ln
    dict := [("_local_name", .str ln),
             ("_parent_module_globals", .obj "parent_module_globals"),
             ("__name__", .str name),
             ("__doc__", .pyNone),
             ("__package__", .pyNone),
             ("__loader__", .pyNone),
             ("__spec__", .pyNone)]
    parentGlobals := pg }

/-- Model of `_LazyImport_FlavorB._load`: import the target module, insert it
into the captured parent globals under `_local_name`, and copy the module's
`__dict__` into the proxy's `__dict__`; a failed import propagates unchanged
and leaves the proxy untouched. -/
def loadB (env : Env) (s : Sys) (p : ProxyB) :
    Except PyErr (RealModule × ProxyB × Sys) :=
  match pyImport env s p.name with
  | .error e => .error e
  | .ok (s', m) =>
      .ok (m,
           { p with
             parentGlobals := aset p.parentGlobals p.localName (.modRef p.name)
             dict := aupdate p.dict m.attrs },
           s')

/-- Model of attribute access on a `_LazyImport_FlavorB` instance: normal
lookup in the instance `__dict__` first; only when that fails does Python
call `__getattr__`, which runs `_load` and forwards the access to the real
module.  (Attributes supplied by the `ModuleType` type object itself, such
as bound methods, are not modelled; no claim accesses one.) -/
def getattrB (env : Env) (s : Sys) (p : ProxyB) (item : String) :
    Except PyErr Value × ProxyB × Sys :=
  match alookup p.dict item with
  | some v => (.ok v, p, s)
  | none =>
      match loadB env s p with
      | .error e => (.error e, p, s)
      | .ok (m, p', s') => (m.getattr item, p', s')

/-- Python `repr` of an attribute value, as the `{!r}` formatting inside
`ModuleType.__repr__` renders it. -/
def pyReprValue : Value → String
  | .pyNone => "None"
  | .nat n => toString n
  | .str s => "'" ++ s ++ "'"
  | .modRef n => "<module '" ++ n ++ "'>"
  | .obj t => "<" ++ t ++ ">"
  | .specObj r => r

/-- Model of `repr` on a `_LazyImport_FlavorB` instance, which is
`ModuleType.__repr__` (`importlib._bootstrap._module_repr`): `__loader__`
and `__spec__` are read first — both are answered from the instance
dictionary, where construction placed them as `None`, so no load is
triggered by these reads.  A truthy spec (present after a load copied the
module dictionary) yields the spec-derived representation.  Otherwise the
function reads `module.__file__`; on a fresh flavor-B proxy that lookup
misses the instance dictionary and falls into `__getattr__`, triggering the
full import: the representation of an unresolved proxy is computed from the
real module's `__file__` (or the import error propagates).  When the
resolved module has no `__file__`, the loader snapshotted before the read —
`None` on a fresh proxy — selects the plain form. -/
def reprB (env : Env) (s : Sys) (p : ProxyB) :
    Except PyErr String × ProxyB × Sys :=
  let loaderBefore := alookup p.dict "__loader__"
  match alookup p.dict "__spec__" with
  | some (.specObj r) => (.ok r, p, s)
  | _ =>
      match getattrB env s p "__file__" with
      | (.ok f, p', s') =>
          (.ok ("<module '" ++ p.name ++ "' from " ++ pyReprValue f ++ ">"),
           p', s')
      | (.error (.attributeError _), p', s') =>
          match loaderBefore with
          | some .pyNone | none => (.ok ("<module '" ++ p.name ++ "'>"), p', s')
          | some l =>
              (.ok ("<module '" ++ p.name ++ "' (" ++ pyReprValue l ++ ")>"),
               p', s')
      | (.error e, p', s') => (.error e, p', s')

/-- Model of `importlib.reload` applied to a flavor-B proxy.  `reload`
recovers the name from `module.__spec__.name`, falling back to
`module.__name__` on the `AttributeError` that `None.name` raises — both
reads are answered from the instance dictionary (present from construction,
or from the module dictionary copied by a load), so no import is triggered —
and then checks that the object it was given is the entry registered in
`sys.modules` under that name.  A flavor-B proxy never is (the machinery
registered the real module), so `reload` raises `ImportError`, whether or
not the proxy has resolved. -/
def reloadB (s : Sys) (p : ProxyB) : Except PyErr Unit × ProxyB × Sys :=
  (.error (.importError ("module " ++ p.name ++ " not in sys.modules")), p, s)

/-! ## Flavor C: `_LazyImport_FlavorC` -/

/-- State a `_LazyImport_FlavorC` call returns: the module object created
from the found spec (with its loader wrapped in `importlib.util.LazyLoader`).
Whether the module's code has run yet is recorded on its `sys.modules`
entry, which is this very object. -/
structure ProxyC where
  name : String
  mod : RealModule
deriving DecidableEq, Repr

/-- Model of `_LazyImport_FlavorC`: `find_spec(name)` locates the module
eagerly — for an unlocatable top-level name it returns `None`, so the
subsequent `spec.loader` access raises `AttributeError` already at
construction — then the module object is created from the spec with a
`LazyLoader`-wrapped loader and registered, unexecuted, in `sys.modules`.
No module code runs at construction. -/
def _LazyImport_FlavorC (env : Env) (s : Sys) (name : String) :
    Except PyErr (ProxyC × Sys) :=
  match alookup env name with
  | none => .error (.attributeError "loader")
  | some m =>
      .ok (⟨name, m⟩,
           { s with modules := aset s.modules name ⟨m, false⟩ })

/-- Model of attribute access on the module returned by
`_LazyImport_FlavorC`: while the `sys.modules` entry is unexecuted, the
first access materializes the module — `LazyLoader` executes the module's
code (counted by `importCount`) and the object becomes an ordinary module —
after which the access is a plain attribute lookup.  (The fallback branch,
reachable only if the registry entry was deleted externally, executes from
the spec captured in the object.) -/
def getattrC (_env : Env) (s : Sys) (p : ProxyC) (x : String) :
    Except PyErr Value × ProxyC × Sys :=
  match alookup s.modules p.name with
  | some e =>
      if e.executed then (e.mod.getattr x, p, s)
      else (e.mod.getattr x, p,
            { modules := aset s.modules p.name ⟨e.mod, true⟩,
              importCount := s.importCount + 1 })
  | none =>
      (p.mod.getattr x, p, { s with importCount := s.importCount + 1 })

/-- Model of `importlib.reload` applied to the module returned by
`_LazyImport_FlavorC`.  That object is itself the entry registered in
`sys.modules` under its name (the constructor put it there), so the identity
check passes and `reload` re-executes the module's code through the loader
the `LazyLoader` machinery restored on the spec. -/
def reloadC (env : Env) (s : Sys) (name : String) : Except PyErr Unit × Sys :=
  match alookup s.modules name with
  | some _ =>
      match alookup env name with
      | some m =>
          (.ok (),
           { modules := aset s.modules name ⟨m, true⟩,
             importCount := s.importCount + 1 })
      | none => (.error (.moduleNotFound name), s)
  | none =>
      (.error (.importError ("module " ++ name ++ " not in sys.modules")), s)

/-! ## Flavor selection and dispatch -/

/-- The three strategy variants `LazyImport` can be bound to: `A` is
`_LazyImport_FlavorA` (the class-swapping proxy), `B` is
`_LazyImport_FlavorB` (the `__getattr__`-based loader), `C` is
`_LazyImport_FlavorC` (the `importlib.util.LazyLoader` wrapper). -/
inductive Flavor where
  | A
  | B
  | C
deriving DecidableEq, Repr

/-- A proxy produced by whichever flavor `LazyImport` is bound to. -/
inductive Proxy where
  | A (p : ProxyA)
  | B (p : ProxyB)
  | C (p : ProxyC)
deriving DecidableEq, Repr

/-- Construction `LazyImport(name)` under a given flavor binding.  Flavors A
and B construct a proxy object with no effect on the runtime state; flavor C
runs `_LazyImport_FlavorC`, which can fail and which registers the module. -/
def LazyImport (f : Flavor) (env : Env) (s : Sys) (name : String) :
    Except PyErr (Proxy × Sys) :=
  match f with
  | .A => .ok (.A (mkProxyA name), s)
  | .B => .ok (.B (mkProxyB name none), s)
  | .C =>
      match _LazyImport_FlavorC env s name with
      | .error e => .error e
      | .ok (p, s') => .ok (.C p, s')

/-- Attribute access on a proxy of any flavor. -/
def Proxy.getattr (env : Env) (s : Sys) (p : Proxy) (x : String) :
    Except PyErr Value × Proxy × Sys :=
  match p with
  | .A pa =>
      match getattrA env s pa x with
      | (r, pa', s') => (r, .A pa', s')
  | .B pb =>
      match getattrB env s pb x with
      | (r, pb', s') => (r, .B pb', s')
  | .C pc =>
      match getattrC env s pc x with
      | (r, pc', s') => (r, .C pc', s')

/-- Python `str.strip()` on the ASCII whitespace occurring in practice, as
`int()` applies it to its argument. -/
def stripWs (l : List Char) : List Char :=
  ((l.dropWhile fun c => c = ' ' ∨ c = '\t' ∨ c = '\n' ∨ c = '\r').reverse.dropWhile
    fun c => c = ' ' ∨ c = '\t' ∨ c = '\n' ∨ c = '\r').reverse

/-- Value of a nonempty all-digit string, `none` otherwise. -/
def digitsVal (l : List Char) : Option Nat :=
  match l with
  | [] => none
  | _ => go l 0
where
  go : List Char → Nat → Option Nat
    | [], acc => some acc
    | c :: rest, acc =>
        if c.isDigit then go rest (acc * 10 + (c.toNat - 48)) else none

/-- Model of Python `int(s)` on a string: strip whitespace, accept an
optional sign followed by digits, otherwise raise `ValueError` (modelled as
`none`).  Underscore digit grouping is not modelled; no claim exercises
it. -/
def pyInt (s : String) : Option Int :=
  match stripWs s.data with
  | '-' :: rest => (digitsVal rest).map fun n => -(n : Int)
  | '+' :: rest => (digitsVal rest).map fun n => (n : Int)
  | l => (digitsVal l).map fun n => (n : Int)

/-- The `ValueError` message `int()` produces on a non-numeric literal. -/
def intLiteralErrMsg (s : String) : String :=
  "invalid literal for int() with base 10: '" ++ s ++ "'"

/-- The `ValueError` message the module raises on an unknown flavor value. -/
def unknownFlavorMsg (n : Int) : String :=
  "Unknown `TE_LAZY_IMPORT_FLAVOR` value received: " ++ toString n

/-- Model of the module-level selector code, run at package-initialization
time: `_LazyImportFlavor = int(os.environ.get("TE_LAZY_IMPORT_FLAVOR", "1"))`
followed by the dispatch on 1/2/3, raising `ValueError` on any other value.
The argument is the environment variable's value, `none` when unset. -/
def selectFlavor (envVar : Option String) : Except PyErr Flavor :=
  match pyInt (envVar.getD "1") with
  | none => .error (.valueError (intLiteralErrMsg (envVar.getD "1")))
  | some n =>
      if n = 1 then .ok .A
      else if n = 2 then .ok .B
      else if n = 3 then .ok .C
      else .error (.valueError (unknownFlavorMsg n))

/-! ## Concrete test fixtures -/

/-- A sample real module, standing for an importable module `mymod` with a
module-level attribute `attr = 42` and `x = 7`. -/
def M42 : RealModule :=
  { attrs := [("attr", .nat 42), ("x", .nat 7),
              ("__name__", .str "mymod"),
              ("__file__", .str "mymod.py"),
              ("__spec__", .specObj "<module 'mymod' from 'mymod.py'>")]
    reprStr := "<module 'mymod' from 'mymod.py'>" }

/-- An environment in which exactly `mymod` is importable. -/
def env0 : Env := [("mymod", M42)]

/-- A fresh runtime state: empty registry, no module code executed yet. -/
def sys0 : Sys := { modules := [], importCount := 0 }

/-! ## Lemmas about the dictionary operations -/

theorem alookup_aset_self {α : Type} (d : List (String × α)) (k : String) (v : α) :
    alookup (aset d k v) k = some v := by
  induction d with
  | nil => simp [aset, alookup]
  | cons hd tl ih =>
      obtain ⟨k', v'⟩ := hd
      by_cases h : k' = k
      · simp [aset, h, alookup]
      · simp [aset, h, alookup, ih]

theorem alookup_append_some {α : Type} {u : List (String × α)} {k : String}
    {v : α} (l : List (String × α)) (h : alookup u k = some v) :
    alookup (u ++ l) k = some v := by
  induction u with
  | nil => simp [alookup] at h
  | cons hd tl ih =>
      obtain ⟨k', v'⟩ := hd
      by_cases hk : k' = k
      · simp [alookup, hk] at h ⊢; exact h
      · simp [alookup, hk] at h ⊢; exact ih h

theorem alookup_append_none {α : Type} {u : List (String × α)} {k : String}
    (l : List (String × α)) (h : alookup u k = none) :
    alookup (u ++ l) k = alookup l k := by
  induction u with
  | nil => simp [alookup]
  | cons hd tl ih =>
      obtain ⟨k', v'⟩ := hd
      by_cases hk : k' = k
      · simp [alookup, hk] at h
      · simp [alookup, hk] at h ⊢; exact ih h

theorem alookup_filter_miss {α : Type} (d u : List (String × α)) (k : String)
    (h : alookup u k = none) :
    alookup (d.filter fun kv => (alookup u kv.1).isNone) k = alookup d k := by
  induction d with
  | nil => simp [alookup]
  | cons hd tl ih =>
      obtain ⟨k', v'⟩ := hd
      by_cases hk : k' = k
      · subst hk
        simp [List.filter_cons, h, alookup, ih]
      · cases hp : (alookup u k').isNone <;>
          simp [List.filter_cons, hp, alookup, hk, ih]

theorem alookup_aupdate_some {α : Type} (d : List (String × α))
    {u : List (String × α)} {k : String} {v : α} (h : alookup u k = some v) :
    alookup (aupdate d u) k = some v :=
  alookup_append_some _ h

theorem alookup_aupdate_none {α : Type} (d : List (String × α))
    {u : List (String × α)} {k : String} (h : alookup u k = none) :
    alookup (aupdate d u) k = alookup d k := by
  unfold aupdate
  rw [alookup_append_none _ h, alookup_filter_miss _ _ _ h]

/-! ## Resolution behavior shared by the claims -/

/-- Resolution behavior common to the three flavors, for an importable name
`name` not yet registered, a triggering attribute `y` that is not satisfied
by the flavor-B proxy's own instance dictionary, and an attribute `attr` the
real module defines: construction succeeds without executing any module
code; the first access forwards exactly the real module's attribute lookup
and executes the module exactly once, registering it; a further access is
answered without touching the registry, the import count, or the proxy's
resolved state. -/
theorem resolve_master (f : Flavor) (env : Env) (s : Sys)
    (name y attr : String) (m : RealModule) (v : Value)
    (h1 : alookup env name = some m)
    (h2 : alookup m.attrs attr = some v)
    (hs : alookup s.modules name = none)
    (hBy : alookup (mkProxyB name none).dict y = none) :
    ∃ p s₁ p₂ s₂,
      LazyImport f env s name = .ok (p, s₁) ∧
      s₁.importCount = s.importCount ∧
      Proxy.getattr env s₁ p y = (m.getattr y, p₂, s₂) ∧
      alookup s₂.modules name = some ⟨m, true⟩ ∧
      s₂.importCount = s.importCount + 1 ∧
      Proxy.getattr env s₂ p₂ attr = (.ok v, p₂, s₂) := by
  cases f with
  | A =>
      refine ⟨.A (mkProxyA name), s, .A (.resolved name m),
        { modules := aset s.modules name ⟨m, true⟩,
          importCount := s.importCount + 1 }, rfl, rfl, ?_, ?_, rfl, ?_⟩
      · simp [Proxy.getattr, getattrA, mkProxyA, pyImport, hs, h1]
      · exact alookup_aset_self _ _ _
      · simp [Proxy.getattr, getattrA, RealModule.getattr, h2]
  | B =>
      refine ⟨.B (mkProxyB name none), s,
        .B { mkProxyB name none with
             parentGlobals := aset (mkProxyB name none).parentGlobals
               (mkProxyB name none).localName (.modRef name)
             dict := aupdate (mkProxyB name none).dict m.attrs },
        { modules := aset s.modules name ⟨m, true⟩,
          importCount := s.importCount + 1 }, rfl, rfl, ?_, ?_, rfl, ?_⟩
      · simp only [mkProxyB] at hBy
        simp [Proxy.getattr, getattrB, hBy, loadB, pyImport, hs, h1, mkProxyB]
      · exact alookup_aset_self _ _ _
      · simp [Proxy.getattr, getattrB, alookup_aupdate_some _ h2]
  | C =>
      refine ⟨.C ⟨name, m⟩,
        { s with modules := aset s.modules name ⟨m, false⟩ },
        .C ⟨name, m⟩,
        { modules := aset (aset s.modules name ⟨m, false⟩) name ⟨m, true⟩,
          importCount := s.importCount + 1 }, ?_, rfl, ?_, ?_, rfl, ?_⟩
      · simp [LazyImport, _LazyImport_FlavorC, h1]
      · simp [Proxy.getattr, getattrC, alookup_aset_self]
      · exact alookup_aset_self _ _ _
      · simp [Proxy.getattr, getattrC, alookup_aset_self, RealModule.getattr, h2]

/-! ## Claims -/

/-- C1: for every flavor the selector can choose, a proxy constructed for
an importable module name, once resolution has been triggered by an attribute
access, answers any attribute the real module defines with the same value
the directly imported real module gives (the triggering access itself is
already forwarded to the real module's attribute lookup). -/
theorem lazy_proxy_forwards_attributes (f : Flavor) (env : Env) (s : Sys)
    (name y attr : String) (m : RealModule) (v : Value)
    (h1 : alookup env name = some m)
    (h2 : alookup m.attrs attr = some v)
    (hs : alookup s.modules name = none)
    (hBy : alookup (mkProxyB name none).dict y = none) :
    ∃ p s₁ p₂ s₂,
      LazyImport f env s name = .ok (p, s₁) ∧
      Proxy.getattr env s₁ p y = (m.getattr y, p₂, s₂) ∧
      Proxy.getattr env s₂ p₂ attr = (.ok v, p₂, s₂) := by
  obtain ⟨p, s₁, p₂, s₂, hc, _, hg, _, _, hg2⟩ :=
    resolve_master f env s name y attr m v h1 h2 hs hBy
  exact ⟨p, s₁, p₂, s₂, hc, hg, hg2⟩

/-- Witness for C1, flavor A: `mymod` with `attr = 42`; the access of `x`
resolves the proxy and `attr` then reads `42`. -/
theorem lazy_proxy_forwards_attributes_witness :
    ∃ p s₁ p₂ s₂,
      LazyImport .A env0 sys0 "mymod" = .ok (p, s₁) ∧
      Proxy.getattr env0 s₁ p "x" = (M42.getattr "x", p₂, s₂) ∧
      Proxy.getattr env0 s₂ p₂ "attr" = (.ok (.nat 42), p₂, s₂) :=
  lazy_proxy_forwards_attributes .A env0 sys0 "mymod" "x" "attr" M42 (.nat 42)
    (by decide) (by decide) (by decide) (by decide)

/-- C2 counterexample: on a flavor-B proxy, reading `_local_name` is a
single attribute access after which the module registry still has no entry
for the module and the import machinery has not run at all — the access is
answered from the proxy's own instance dictionary.  This contradicts the
claim that after any single attribute access the registry contains a loaded
entry for the proxy's name. -/
theorem attribute_access_without_resolution_flavorB :
    getattrB env0 sys0 (mkProxyB "mymod" none) "_local_name"
      = (.ok (.str "mymod"), mkProxyB "mymod" none, sys0) ∧
    alookup sys0.modules "mymod" = none ∧ sys0.importCount = 0 := by decide

/-- C2 (amended): after any attribute access that actually reaches
the importing machinery (for flavor A any access, for flavor B an access not
already satisfied by the proxy's instance dictionary, for flavor C any
access), the registry contains a loaded entry for the name and the module's
code has been executed exactly once; a second, independent access leaves the
proxy, the registry, and the import count unchanged, so there is no path
back from resolved to unresolved. -/
theorem one_shot_resolution_when_triggered (f : Flavor) (env : Env) (s : Sys)
    (name y attr : String) (m : RealModule) (v : Value)
    (h1 : alookup env name = some m)
    (h2 : alookup m.attrs attr = some v)
    (hs : alookup s.modules name = none)
    (hBy : alookup (mkProxyB name none).dict y = none) :
    ∃ p s₁ p₂ s₂,
      LazyImport f env s name = .ok (p, s₁) ∧
      s₁.importCount = s.importCount ∧
      Proxy.getattr env s₁ p y = (m.getattr y, p₂, s₂) ∧
      alookup s₂.modules name = some ⟨m, true⟩ ∧
      s₂.importCount = s.importCount + 1 ∧
      Proxy.getattr env s₂ p₂ attr = (.ok v, p₂, s₂) :=
  resolve_master f env s name y attr m v h1 h2 hs hBy

/-- Witness for the amended C2, flavor B: resolving `mymod` through the
access of `x` executes the module exactly once and a second access changes
nothing. -/
theorem one_shot_resolution_when_triggered_witness :
    ∃ p s₁ p₂ s₂,
      LazyImport .B env0 sys0 "mymod" = .ok (p, s₁) ∧
      s₁.importCount = sys0.importCount ∧
      Proxy.getattr env0 s₁ p "x" = (M42.getattr "x", p₂, s₂) ∧
      alookup s₂.modules "mymod" = some ⟨M42, true⟩ ∧
      s₂.importCount = sys0.importCount + 1 ∧
      Proxy.getattr env0 s₂ p₂ "attr" = (.ok (.nat 42), p₂, s₂) :=
  one_shot_resolution_when_triggered .B env0 sys0 "mymod" "x" "attr" M42 (.nat 42)
    (by decide) (by decide) (by decide) (by decide)

/-- C6 counterexample: a flavor-C proxy for `mymod` that has already
resolved (its code ran once on the first attribute access) accepts an
explicit `importlib.reload`: the reload returns successfully and the
module's code runs a second time, instead of an error being signalled. -/
theorem flavorC_reload_reimports :
    LazyImport .C env0 sys0 "mymod"
      = .ok (.C ⟨"mymod", M42⟩, ⟨[("mymod", ⟨M42, false⟩)], 0⟩) ∧
    getattrC env0 ⟨[("mymod", ⟨M42, false⟩)], 0⟩ ⟨"mymod", M42⟩ "attr"
      = (.ok (.nat 42), ⟨"mymod", M42⟩, ⟨[("mymod", ⟨M42, true⟩)], 1⟩) ∧
    reloadC env0 ⟨[("mymod", ⟨M42, true⟩)], 1⟩ "mymod"
      = (.ok (), ⟨[("mymod", ⟨M42, true⟩)], 2⟩) := by decide

/-- C6 (amended): under flavors A and B an explicit reload of an
already-resolved proxy fails with `ImportError` (the proxy object is not
the `sys.modules` entry for its name), rather than silently re-importing —
for flavor B this holds for every proxy state; under flavor C, whose
returned object is itself the registry entry, the reload silently
re-executes the module. -/
theorem reload_rejected_after_resolution_flavorsAB (env : Env) (s : Sys)
    (name : String) (m : RealModule) :
    reloadA env s (.resolved name m)
      = (.error (.importError ("module " ++ name ++ " not in sys.modules")),
         .resolved name m, s) ∧
    ∀ p : ProxyB,
      reloadB s p
        = (.error (.importError ("module " ++ p.name ++ " not in sys.modules")),
           p, s) :=
  ⟨rfl, fun _ => rfl⟩

/-- C7: a selector value whose integer reading is outside {1, 2, 3} — or
which has no integer reading at all — makes the module-level selection code
raise `ValueError` with a message naming the offending value; no flavor is
returned, so there is no fallback default, and the error occurs in the code
that runs at package-initialization time. -/
theorem invalid_flavor_value_fatal_at_init (v : String) :
    (pyInt v = none →
      selectFlavor (some v) = .error (.valueError (intLiteralErrMsg v))) ∧
    (∀ n : Int, pyInt v = some n → n ≠ 1 → n ≠ 2 → n ≠ 3 →
      selectFlavor (some v) = .error (.valueError (unknownFlavorMsg n))) := by
  constructor
  · intro h
    simp [selectFlavor, h]
  · intro n hn hn1 hn2 hn3
    simp [selectFlavor, hn, hn1, hn2, hn3]

/-- Witness for C7: the value "99" is rejected with a `ValueError` whose
message names 99. -/
theorem invalid_flavor_value_fatal_at_init_witness :
    selectFlavor (some "99")
      = .error (.valueError "Unknown `TE_LAZY_IMPORT_FLAVOR` value received: 99") :=
  (invalid_flavor_value_fatal_at_init "99").2 99
    (by decide) (by decide) (by decide) (by decide)

/-- C9: with the environment variable unset, the selector parses the default
string "1" and yields flavor A, so `LazyImport` is bound to
`_LazyImport_FlavorA`, whose construction simply creates an unresolved
class-swapping proxy; package initialization reaches no error branch. -/
theorem default_flavor_is_A :
    selectFlavor none = .ok .A ∧
    ∀ (env : Env) (s : Sys) (name : String),
      LazyImport .A env s name = .ok (.A (mkProxyA name), s) :=
  ⟨by decide, fun _ _ _ => rfl⟩

theorem mkProxyB_name (name : String) (pg : Option (List (String × Value))) :
    (mkProxyB name pg).name = name := rfl

theorem mkProxyB_localName (name : String) (pg : Option (List (String × Value))) :
    (mkProxyB name pg).localName = lastSegment name := rfl

/-- C3 counterexample: constructing a flavor-C proxy for `mymod` does not
leave the module registry unchanged — `mymod` appears in `sys.modules`
immediately, placed there by the constructor itself. -/
theorem flavorC_construction_changes_registry :
    alookup sys0.modules "mymod" = none ∧
    LazyImport .C env0 sys0 "mymod"
      = .ok (.C ⟨"mymod", M42⟩, ⟨[("mymod", ⟨M42, false⟩)], 0⟩) ∧
    alookup [("mymod", (⟨M42, false⟩ : ModEntry))] "mymod" = some ⟨M42, false⟩ := by
  decide

/-- C3 (amended): under every flavor, construction executes no module code
(the import count is unchanged and no executed entry appears); under flavors
A and B the runtime state is completely untouched; under flavor C the
constructor does change the registry, inserting an unexecuted placeholder
for the name. -/
theorem construction_performs_no_import (env : Env) (s : Sys) (name : String)
    (m : RealModule) (h1 : alookup env name = some m) :
    LazyImport .A env s name = .ok (.A (mkProxyA name), s) ∧
    LazyImport .B env s name = .ok (.B (mkProxyB name none), s) ∧
    ∃ s', LazyImport .C env s name = .ok (.C ⟨name, m⟩, s') ∧
      s'.importCount = s.importCount ∧
      alookup s'.modules name = some ⟨m, false⟩ := by
  refine ⟨rfl, rfl, { s with modules := aset s.modules name ⟨m, false⟩ },
    ?_, rfl, ?_⟩
  · simp [LazyImport, _LazyImport_FlavorC, h1]
  · exact alookup_aset_self _ _ _

/-- Witness for the amended C3 at `mymod`. -/
theorem construction_performs_no_import_witness :
    LazyImport .A env0 sys0 "mymod" = .ok (.A (mkProxyA "mymod"), sys0) ∧
    LazyImport .B env0 sys0 "mymod" = .ok (.B (mkProxyB "mymod" none), sys0) ∧
    ∃ s', LazyImport .C env0 sys0 "mymod" = .ok (.C ⟨"mymod", M42⟩, s') ∧
      s'.importCount = sys0.importCount ∧
      alookup s'.modules "mymod" = some ⟨M42, false⟩ :=
  construction_performs_no_import env0 sys0 "mymod" M42 (by decide)

/-- C4 counterexample: under flavor C a proxy for an unlocatable name cannot
even be constructed — `find_spec` returns `None` and the constructor raises
at construction time (an `AttributeError` on `spec.loader`, not the
`ModuleNotFoundError` a direct import raises), before any attribute
access. -/
theorem flavorC_missing_module_fails_at_construction :
    LazyImport .C env0 sys0 "ghost" = .error (.attributeError "loader") ∧
    pyImport env0 sys0 "ghost" = .error (.moduleNotFound "ghost") := by decide

/-- C4 (amended): under flavors A and B construction performs no validation
and always succeeds; a name that cannot be located raises exactly the
`ModuleNotFoundError` the direct import raises, at the first attribute
access; an attribute missing on the resolved module raises exactly the
`AttributeError` direct attribute access on the module raises.  Under
flavor C the module is located eagerly and an unlocatable name fails at
construction instead. -/
theorem errors_deferred_and_propagated_flavorsAB (env : Env) (s : Sys)
    (name attr : String)
    (hs : alookup s.modules name = none)
    (hB : alookup (mkProxyB name none).dict attr = none) :
    LazyImport .A env s name = .ok (.A (mkProxyA name), s) ∧
    LazyImport .B env s name = .ok (.B (mkProxyB name none), s) ∧
    (alookup env name = none →
      pyImport env s name = .error (.moduleNotFound name) ∧
      getattrA env s (mkProxyA name) attr
        = (.error (.moduleNotFound name), mkProxyA name, s) ∧
      getattrB env s (mkProxyB name none) attr
        = (.error (.moduleNotFound name), mkProxyB name none, s)) ∧
    (∀ m : RealModule, alookup env name = some m → alookup m.attrs attr = none →
      m.getattr attr = .error (.attributeError attr) ∧
      (getattrA env s (mkProxyA name) attr).1 = .error (.attributeError attr) ∧
      (getattrB env s (mkProxyB name none) attr).1 = .error (.attributeError attr)) := by
  refine ⟨rfl, rfl, ?_, ?_⟩
  · intro h
    refine ⟨?_, ?_, ?_⟩
    · simp [pyImport, hs, h]
    · simp [getattrA, mkProxyA, pyImport, hs, h]
    · simp [getattrB, hB, loadB, mkProxyB_name, pyImport, hs, h]
  · intro m hm hattr
    refine ⟨?_, ?_, ?_⟩
    · simp [RealModule.getattr, hattr]
    · simp [getattrA, mkProxyA, pyImport, hs, hm, RealModule.getattr, hattr]
    · simp [getattrB, hB, loadB, mkProxyB_name, pyImport, hs, hm,
        RealModule.getattr, hattr]

/-- Witness for the amended C4: for the unlocatable `ghost`, flavors A and B
construct fine and the first attribute access raises the direct import's
`ModuleNotFoundError`; for `mymod` without a `missing` attribute, the access
raises the direct `AttributeError`. -/
theorem errors_deferred_and_propagated_flavorsAB_witness :
    (getattrA env0 sys0 (mkProxyA "ghost") "attr"
      = (.error (.moduleNotFound "ghost"), mkProxyA "ghost", sys0)) ∧
    (getattrB env0 sys0 (mkProxyB "ghost" none) "attr"
      = (.error (.moduleNotFound "ghost"), mkProxyB "ghost" none, sys0)) ∧
    (getattrA env0 sys0 (mkProxyA "mymod") "missing").1
      = .error (.attributeError "missing") ∧
    (getattrB env0 sys0 (mkProxyB "mymod" none) "missing").1
      = .error (.attributeError "missing") :=
  ⟨((errors_deferred_and_propagated_flavorsAB env0 sys0 "ghost" "attr"
      (by decide) (by decide)).2.2.1 (by decide)).2.1,
   ((errors_deferred_and_propagated_flavorsAB env0 sys0 "ghost" "attr"
      (by decide) (by decide)).2.2.1 (by decide)).2.2,
   ((errors_deferred_and_propagated_flavorsAB env0 sys0 "mymod" "missing"
      (by decide) (by decide)).2.2.2 M42 (by decide) (by decide)).2.1,
   ((errors_deferred_and_propagated_flavorsAB env0 sys0 "mymod" "missing"
      (by decide) (by decide)).2.2.2 M42 (by decide) (by decide)).2.2⟩

/-- C5 counterexample: the variants are observably different already at
construction: for an unlocatable name flavor A constructs a proxy and
defers the failure while flavor C raises immediately, so the two flavors
give different results for the same construction call. -/
theorem variant_construction_behavior_differs :
    LazyImport .A env0 sys0 "ghost" ≠ LazyImport .C env0 sys0 "ghost" := by
  decide

/-- C5 (amended): flavors A and B do agree observably on any attribute read
not shadowed by the flavor-B proxy's instance dictionary — they produce the
same value or error and the same final runtime state; but flavor C is not
observably identical to them: it locates the module and mutates the
registry at construction time, so the configuration flag changes more than
how resolution is triggered and cached. -/
theorem flavorsAB_observably_equivalent (env : Env) (s : Sys)
    (name attr : String)
    (hs : alookup s.modules name = none)
    (hB : alookup (mkProxyB name none).dict attr = none) :
    (getattrA env s (mkProxyA name) attr).1
      = (getattrB env s (mkProxyB name none) attr).1 ∧
    (getattrA env s (mkProxyA name) attr).2.2
      = (getattrB env s (mkProxyB name none) attr).2.2 := by
  cases h : alookup env name with
  | none =>
      constructor <;>
        simp [getattrA, getattrB, mkProxyA, hB, loadB, mkProxyB_name,
          pyImport, hs, h]
  | some m =>
      constructor <;>
        simp [getattrA, getattrB, mkProxyA, hB, loadB, mkProxyB_name,
          pyImport, hs, h]

/-- Witness for the amended C5: on `mymod.attr` flavors A and B give the
same value and the same final state. -/
theorem flavorsAB_observably_equivalent_witness :
    (getattrA env0 sys0 (mkProxyA "mymod") "attr").1
      = (getattrB env0 sys0 (mkProxyB "mymod" none) "attr").1 ∧
    (getattrA env0 sys0 (mkProxyA "mymod") "attr").2.2
      = (getattrB env0 sys0 (mkProxyB "mymod" none) "attr").2.2 :=
  flavorsAB_observably_equivalent env0 sys0 "mymod" "attr" (by decide) (by decide)

/-- C8 counterexample: computing the representation of a freshly
constructed (unresolved) flavor-B proxy reads `__file__`, which falls into
`__getattr__` and triggers the full import: the result is the real module's
file-based representation, not a string indicating a pending lazy load —
and the module's code has already run by the time the string exists. -/
theorem flavorB_repr_triggers_full_import :
    (reprB env0 sys0 (mkProxyB "mymod" none)).1
      = .ok "<module 'mymod' from 'mymod.py'>" ∧
    (reprB env0 sys0 (mkProxyB "mymod" none)).2.2.importCount = 1 ∧
    "<module 'mymod' from 'mymod.py'>"
      ≠ "<module 'mymod' will be lazily loaded>" := by
  decide

/-- C8 (amended): under flavor A the representation before resolution is
exactly "<module '<name>' will be lazily loaded>"; after resolution the
proxy's representation is the real module's own, and (whenever the real
module's representation is not itself the pending-load string) the two
differ.  A flavor-B proxy's representation never indicates a pending lazy
load: computing it on an unresolved proxy triggers the full import and
yields the real module's representation, or propagates the import
failure. -/
theorem repr_transition_flavorA (env : Env) (s : Sys) (name x : String)
    (m : RealModule)
    (h1 : alookup env name = some m)
    (hs : alookup s.modules name = none)
    (hr : m.reprStr ≠ "<module '" ++ name ++ "' will be lazily loaded>") :
    reprA (mkProxyA name) = "<module '" ++ name ++ "' will be lazily loaded>" ∧
    (getattrA env s (mkProxyA name) x).2.1 = .resolved name m ∧
    reprA ((getattrA env s (mkProxyA name) x).2.1) = m.reprStr ∧
    reprA ((getattrA env s (mkProxyA name) x).2.1) ≠ reprA (mkProxyA name) := by
  have hres : (getattrA env s (mkProxyA name) x).2.1 = .resolved name m := by
    simp [getattrA, mkProxyA, pyImport, hs, h1]
  refine ⟨rfl, hres, ?_, ?_⟩
  · rw [hres]; simp [reprA]
  · rw [hres]; simpa [reprA, mkProxyA] using hr

/-- Witness for the amended C8 at `mymod`: pending string before, the real
module's repr after, and the two differ. -/
theorem repr_transition_flavorA_witness :
    reprA (mkProxyA "mymod") = "<module 'mymod' will be lazily loaded>" ∧
    (getattrA env0 sys0 (mkProxyA "mymod") "attr").2.1 = .resolved "mymod" M42 ∧
    reprA ((getattrA env0 sys0 (mkProxyA "mymod") "attr").2.1)
      = "<module 'mymod' from 'mymod.py'>" ∧
    reprA ((getattrA env0 sys0 (mkProxyA "mymod") "attr").2.1)
      ≠ reprA (mkProxyA "mymod") :=
  repr_transition_flavorA env0 sys0 "mymod" "attr" M42
    (by decide) (by decide) (by decide)

/-- C10: resolving a flavor-B proxy has the additional global effect of
inserting the imported module into the captured `parent_module_globals`
mapping under the leaf segment of the dotted name, and of copying the
module's dictionary into the proxy's own dictionary; when no mapping is
passed, the captured mapping is the `lazy_import` module's own globals. -/
theorem flavorB_load_side_effects (env : Env) (s : Sys) (name : String)
    (pg : Option (List (String × Value))) (m : RealModule)
    (h1 : alookup env name = some m)
    (hs : alookup s.modules name = none) :
    (mkProxyB name none).parentGlobals = lazyImportModuleGlobals ∧
    ∃ p' s', loadB env s (mkProxyB name pg) = .ok (m, p', s') ∧
      p'.localName = lastSegment name ∧
      alookup p'.parentGlobals (lastSegment name) = some (.modRef name) ∧
      (∀ k w, alookup m.attrs k = some w → alookup p'.dict k = some w) := by
  have hpi : pyImport env s name
      = .ok ({ modules := aset s.modules name ⟨m, true⟩,
               importCount := s.importCount + 1 }, m) := by
    simp [pyImport, hs, h1]
  refine ⟨rfl,
    { name := name
      localName := lastSegment name
      dict := aupdate (mkProxyB name pg).dict m.attrs
      parentGlobals := aset (mkProxyB name pg).parentGlobals
        (lastSegment name) (.modRef name) },
    { modules := aset s.modules name ⟨m, true⟩,
      importCount := s.importCount + 1 },
    ?_, rfl, alookup_aset_self _ _ _, fun k w hk => alookup_aupdate_some _ hk⟩
  simp [loadB, mkProxyB, hpi]

/-- Witness for C10 at `mymod` with the default (module-globals) target:
the load inserts the module under `mymod` and copies `attr = 42` into the
proxy dictionary. -/
theorem flavorB_load_side_effects_witness :
    (mkProxyB "mymod" none).parentGlobals = lazyImportModuleGlobals ∧
    ∃ p' s', loadB env0 sys0 (mkProxyB "mymod" none) = .ok (M42, p', s') ∧
      p'.localName = lastSegment "mymod" ∧
      alookup p'.parentGlobals (lastSegment "mymod") = some (.modRef "mymod") ∧
      (∀ k w, alookup M42.attrs k = some w → alookup p'.dict k = some w) :=
  flavorB_load_side_effects env0 sys0 "mymod" none M42 (by decide) (by decide)
